import Mathlib

/-!
Verification development for the itmo_choice_bot data-access helpers.

The repository wraps three external services (a graph/document store, a
vector store, and an OpenAI-compatible chat-completion endpoint) in thin
adapter classes.  This file gives a shallow embedding of the adapter code
in Lean: the external clients are modelled as explicit state / response
functions passed to each operation, and every Python exception path is
made explicit through an error type.  Calls issued to the underlying
client are returned alongside the result so that claims about call counts
are expressible.
-/

/-- Error classes raised by the adapter code.  The Python code raises
ValueError for input validation and JSON-validation failures, RuntimeError
for wrapped client failures, and lets KeyError / TypeError from record
construction escape unwrapped.  Messages are carried where the claims need
them and elided otherwise. -/
inductive PyErr where
  | valueError (msg : String)
  | runtimeError (msg : String)
  | keyError (key : String)
  | typeError
deriving DecidableEq, Repr

/-- True for value-class (ValueError) errors. -/
def PyErr.isValueError : PyErr → Bool
  | .valueError _ => true
  | _ => false

/-- True for request/upsert-class (RuntimeError) errors. -/
def PyErr.isRuntimeError : PyErr → Bool
  | .runtimeError _ => true
  | _ => false

/-- JSON-compatible Python values (payloads, parsed model instances).
Numbers are modelled as integers; none of the adapter code computes on
numeric payload values. -/
inductive JsonVal where
  | null
  | bool (b : Bool)
  | int (n : Int)
  | str (s : String)
  | arr (xs : List JsonVal)
  | obj (fields : List (String × JsonVal))

/-- Python truthiness of a string: the empty string is falsy. -/
def pyTruthy (s : String) : Bool := s ≠ ""

/-- A value that can sit under the "id" key of a record: an int, a string,
or some other object that int() cannot coerce. -/
inductive PyIdVal where
  | int (n : Int)
  | str (s : String)
  | other
deriving DecidableEq, Repr

/-- All-decimal-digit parse of a character list; none when empty or a
non-digit occurs.  Models the digit run accepted by Python int(). -/
def parseDigits : List Char → Option Nat
  | [] => none
  | cs => cs.foldl
      (fun acc c => match acc with
        | none => none
        | some n => if c.isDigit then some (n * 10 + (c.toNat - 48)) else none)
      (some 0)

/-- Drop leading ASCII whitespace characters. -/
def dropSpace : List Char → List Char
  | c :: cs => if c = ' ' ∨ c = '\n' ∨ c = '\t' ∨ c = '\r' then dropSpace cs else c :: cs
  | [] => []

/-- Strip whitespace from both ends of a string, as int() does. -/
def pyStrip (s : String) : List Char :=
  (dropSpace (dropSpace s.toList).reverse).reverse

/-- Python int() applied to a string: optional sign followed by digits
(surrounding whitespace stripped; underscores and non-ASCII digits are not
modelled). -/
def pyIntOfString (s : String) : Option Int :=
  match pyStrip s with
  | '-' :: rest => (parseDigits rest).map (fun n => -(n : Int))
  | '+' :: rest => (parseDigits rest).map (fun n => (n : Int))
  | cs => (parseDigits cs).map (fun n => (n : Int))

/-- Python int(x) on a record id value: identity on ints, string parse on
strings (ValueError on failure), TypeError otherwise. -/
def pyInt : PyIdVal → Except PyErr Int
  | .int n => .ok n
  | .str s =>
      match pyIntOfString s with
      | some n => .ok n
      | none => .error (.valueError ("invalid literal for int() with base 10: " ++ s))
  | .other => .error .typeError

namespace QdrantCollection

/-- Vector collection configuration passed to the store on creation. -/
structure VectorParams where
  size : Nat
  distance : String
deriving DecidableEq, Repr

/-- One creation call issued to the underlying store. -/
structure CreateCall where
  collection_name : String
  vectors_config : VectorParams
deriving DecidableEq, Repr

/-- State and health of the underlying Qdrant client: the collection names
it currently reports, and whether its get_collections / create_collection
calls succeed (a false flag makes the corresponding call raise). -/
structure QdrantBackend where
  collections : List String
  get_collections_ok : Bool
  create_ok : Bool
deriving DecidableEq, Repr

/-- Embedding of QdrantCollection.create_collection: list the existing
collection names, return if the name is present, otherwise issue one
creation call; any client exception is wrapped into a RuntimeError.
Returns the result, the updated backend, and the creation calls issued. -/
def create_collection (b : QdrantBackend) (collection_name : String)
    (vp : VectorParams) : Except PyErr Unit × QdrantBackend × List CreateCall :=
  if b.get_collections_ok = false then
    (.error (.runtimeError ("Failed to create collection '" ++ collection_name ++ "'")), b, [])
  else if collection_name ∈ b.collections then
    (.ok (), b, [])
  else if b.create_ok then
    (.ok (), { b with collections := b.collections ++ [collection_name] },
      [⟨collection_name, vp⟩])
  else
    (.error (.runtimeError ("Failed to create collection '" ++ collection_name ++ "'")), b,
      [⟨collection_name, vp⟩])

/-- A record dict passed to add_records: the values found under the "id",
"vector" and "payload" keys, none when the key is absent. -/
structure RawRecord where
  idField : Option PyIdVal
  vectorField : Option (List Rat)
  payloadField : Option JsonVal

/-- A point sent to the store by upsert. -/
structure PointStruct where
  id : Int
  vector : List Rat
  payload : JsonVal

/-- Embedding of the PointStruct(...) construction inside the add_records
loop: rec["id"] (KeyError when absent) coerced with int(), rec["vector"]
(KeyError when absent), rec.get("payload", \x7b\x7d). -/
def buildPoint (rec : RawRecord) : Except PyErr PointStruct :=
  match rec.idField with
  | none => .error (.keyError "id")
  | some idv =>
      match pyInt idv with
      | .error e => .error e
      | .ok idInt =>
          match rec.vectorField with
          | none => .error (.keyError "vector")
          | some vec => .ok ⟨idInt, vec, rec.payloadField.getD (.obj [])⟩

/-- The for-loop of add_records: build the points in order, propagating the
first construction error unwrapped. -/
def buildPoints : List RawRecord → Except PyErr (List PointStruct)
  | [] => .ok []
  | r :: rs =>
      match buildPoint r with
      | .error e => .error e
      | .ok p =>
          match buildPoints rs with
          | .error e => .error e
          | .ok ps => .ok (p :: ps)

/-- One bulk upsert call issued to the underlying client. -/
structure UpsertCall where
  collection_name : String
  points : List PointStruct

/-- Embedding of QdrantCollection.add_records: reject an empty list with a
ValueError before touching the client, build the points (errors escape
raw), then issue exactly one bulk upsert, wrapping an upsert failure into
a RuntimeError.  upsert_ok models whether the client call raises.  Returns
the result and the upsert calls issued to the client. -/
def add_records (collection_name : String) (upsert_ok : Bool)
    (records : List RawRecord) : Except PyErr Unit × List UpsertCall :=
  match records with
  | [] => (.error (.valueError "No records provided for upsert."), [])
  | _ :: _ =>
      match buildPoints records with
      | .error e => (.error e, [])
      | .ok points =>
          if upsert_ok then
            (.ok (), [⟨collection_name, points⟩])
          else
            (.error (.runtimeError ("Failed to upsert records into '" ++ collection_name ++ "'")),
              [⟨collection_name, points⟩])

/-- An opaque payload filter value, as accepted by the search signature. -/
structure QdrantFilter where
  val : JsonVal

/-- The search request actually sent to the underlying client.  The filter
argument does not appear: the corresponding keyword in the source is
commented out. -/
structure SearchRequest where
  collection_name : String
  query_vector : List Rat
  limit : Nat
  score_threshold : Option Rat
deriving DecidableEq, Repr

/-- A scored point returned by the underlying client. -/
structure ScoredPoint where
  id : Int
  payload : JsonVal
  score : Rat

/-- A search result dict with keys "id", "payload" and "score". -/
structure SearchResult where
  id : Int
  payload : JsonVal
  score : Rat

/-- Embedding of QdrantCollection.search: issue one search request built
from the query vector, limit and score threshold (the filter parameter is
accepted but not forwarded), wrap a client failure into a RuntimeError,
and project each returned point to an id/payload/score dict. -/
def search (collection_name : String)
    (store : SearchRequest → Except String (List ScoredPoint))
    (query_vector : List Rat) (limit : Nat) (filter : Option QdrantFilter)
    (score_threshold : Option Rat) : Except PyErr (List SearchResult) :=
  match store ⟨collection_name, query_vector, limit, score_threshold⟩ with
  | .error e => .error (.runtimeError ("Search in '" ++ collection_name ++ "' failed: " ++ e))
  | .ok results => .ok (results.map fun p => ⟨p.id, p.payload, p.score⟩)

end QdrantCollection

/-- A typed content part inside a chat message. -/
inductive ContentPart where
  | text (text : String)
  | image_url (url : String)
deriving DecidableEq, Repr

/-- Chat message content: either a plain string or a list of typed parts. -/
inductive MsgContent where
  | str (s : String)
  | parts (ps : List ContentPart)
deriving DecidableEq, Repr

/-- A role-tagged chat message. -/
structure ChatMessage where
  role : String
  content : MsgContent
deriving DecidableEq, Repr

/-- One chat-completion request issued to the endpoint.  max_tokens is none
when the call does not pass it. -/
structure ChatRequest where
  model : String
  messages : List ChatMessage
  max_tokens : Option Nat
  temperature : Rat
deriving DecidableEq, Repr

/-- A chat-completion response: the content string of each choice
(choices[i].message.content). -/
structure ChatResponse where
  choices : List String
deriving DecidableEq, Repr

mutual

/-- Compact JSON serialization, as produced by pydantic model_dump_json on
the validated instance.  String escaping is not modelled. -/
def dumpJson : JsonVal → String
  | .null => "null"
  | .bool true => "true"
  | .bool false => "false"
  | .int n => toString n
  | .str s => "\"" ++ s ++ "\""
  | .arr xs => "[" ++ dumpJsonArr xs ++ "]"
  | .obj fs => "\x7b" ++ dumpJsonObj fs ++ "\x7d"

def dumpJsonArr : List JsonVal → String
  | [] => ""
  | [x] => dumpJson x
  | x :: y :: rest => dumpJson x ++ "," ++ dumpJsonArr (y :: rest)

def dumpJsonObj : List (String × JsonVal) → String
  | [] => ""
  | [(k, v)] => "\"" ++ k ++ "\":" ++ dumpJson v
  | (k, v) :: f :: rest => "\"" ++ k ++ "\":" ++ dumpJson v ++ "," ++ dumpJsonObj (f :: rest)

end

/-- Drop leading JSON whitespace. -/
def skipWs : List Char → List Char
  | c :: cs => if c = ' ' ∨ c = '\n' ∨ c = '\t' ∨ c = '\r' then skipWs cs else c :: cs
  | [] => []

/-- Parse the remainder of a JSON string literal after the opening quote
(escape sequences are not modelled). -/
def parseStringLit : List Char → Option (String × List Char)
  | [] => none
  | c :: rest =>
      if c = '"' then some ("", rest)
      else (parseStringLit rest).map (fun p => (String.mk (c :: p.1.toList), p.2))

/-- Longest decimal-digit prefix and the remainder. -/
def takeDigits : List Char → List Char × List Char
  | [] => ([], [])
  | c :: cs =>
      if c.isDigit then
        let p := takeDigits cs
        (c :: p.1, p.2)
      else ([], c :: cs)

/-- The opening brace character of a JSON object. -/
def lbrace : Char := Char.ofNat 123

/-- The closing brace character of a JSON object. -/
def rbrace : Char := Char.ofNat 125

mutual

/-- Fuel-bounded JSON parser (integers only; no floats, no escapes),
modelling the JSON decoding performed by pydantic model_validate_json. -/
def parseJsonVal : Nat → List Char → Option (JsonVal × List Char)
  | 0, _ => none
  | fuel + 1, cs =>
      match skipWs cs with
      | 'n' :: 'u' :: 'l' :: 'l' :: rest => some (.null, rest)
      | 't' :: 'r' :: 'u' :: 'e' :: rest => some (.bool true, rest)
      | 'f' :: 'a' :: 'l' :: 's' :: 'e' :: rest => some (.bool false, rest)
      | '"' :: rest => (parseStringLit rest).map (fun p => (.str p.1, p.2))
      | '-' :: rest =>
          match takeDigits rest with
          | ([], _) => none
          | (ds, rem) => (parseDigits ds).map (fun n => (.int (-(n : Int)), rem))
      | '[' :: rest =>
          match skipWs rest with
          | ']' :: rem => some (.arr [], rem)
          | rest2 => (parseJsonArr fuel rest2).map (fun p => (.arr p.1, p.2))
      | c :: rest =>
          if c = lbrace then
            match skipWs rest with
            | c2 :: rem =>
                if c2 = rbrace then some (.obj [], rem)
                else (parseJsonObj fuel (c2 :: rem)).map (fun p => (.obj p.1, p.2))
            | [] => none
          else if c.isDigit then
            match takeDigits (c :: rest) with
            | ([], _) => none
            | (ds, rem) => (parseDigits ds).map (fun n => (.int (n : Int), rem))
          else none
      | [] => none

/-- Comma-separated JSON values up to the closing bracket. -/
def parseJsonArr : Nat → List Char → Option (List JsonVal × List Char)
  | 0, _ => none
  | fuel + 1, cs => do
      let (v, rest) ← parseJsonVal fuel cs
      match skipWs rest with
      | ',' :: rest2 => (parseJsonArr fuel rest2).map (fun p => (v :: p.1, p.2))
      | ']' :: rest2 => some ([v], rest2)
      | _ => none

/-- Comma-separated string-keyed members up to the closing brace. -/
def parseJsonObj : Nat → List Char → Option (List (String × JsonVal) × List Char)
  | 0, _ => none
  | fuel + 1, cs =>
      match skipWs cs with
      | '"' :: rest => do
          let (k, rest1) ← parseStringLit rest
          match skipWs rest1 with
          | ':' :: rest2 => do
              let (v, rest3) ← parseJsonVal fuel rest2
              match skipWs rest3 with
              | ',' :: rest4 => (parseJsonObj fuel rest4).map (fun p => ((k, v) :: p.1, p.2))
              | c :: rest4 =>
                  if c = rbrace then some ([(k, v)], rest4) else none
              | [] => none
          | _ => none
      | _ => none

end

/-- Parse a whole JSON document: one value with only whitespace after it. -/
def parseJson (s : String) : Option JsonVal :=
  match parseJsonVal (s.toList.length + 1) s.toList with
  | some (v, rest) => if skipWs rest = [] then some v else none
  | none => none

/-- A caller-supplied pydantic response model: model_validate_json parses
and validates the response text into an instance, model_dump_json
serializes a validated instance. -/
structure ResponseModel where
  validate_json : String → Except String JsonVal
  dump_json : JsonVal → String

/-- The schema of the spec's example: a pydantic model with the single
required integer field a.  Validation parses the text as JSON, requires an
object with an integer under "a", and yields the instance with exactly
that field; serialization is the compact dump. -/
def modelA : ResponseModel where
  validate_json := fun s =>
    match parseJson s with
    | none => Except.error "Invalid JSON"
    | some (.obj fields) =>
        match fields.lookup "a" with
        | some (.int n) => Except.ok (.obj [("a", .int n)])
        | _ => Except.error "a: Input should be a valid integer"
    | some _ => Except.error "Input should be a valid dictionary"
  dump_json := dumpJson

namespace LocalOpenaiClient

/-- The message list built by LocalOpenaiClient.generate: an optional
system message (when the system prompt is truthy), then a user message
wrapping the prompt as a text content part. -/
def generate_messages (prompt system_prompt : String) : List ChatMessage :=
  (if pyTruthy system_prompt then [⟨"system", .str system_prompt⟩] else []) ++
    [⟨"user", .parts [.text prompt]⟩]

/-- Embedding of LocalOpenaiClient.generate.  The endpoint is modelled by
the transport function; the request issued to it is returned alongside the
result.  A transport failure is wrapped into a RuntimeError; an empty
choices list makes the response parse fail with a RuntimeError.  The
request sent to the endpoint is generate_request. -/
def generate_request (model_name prompt : String) (max_tokens : Nat)
    (temperature : Rat) (system_prompt : String) : ChatRequest :=
  ⟨model_name, generate_messages prompt system_prompt, some max_tokens, temperature⟩

/-- Embedding of LocalOpenaiClient.generate, continued: exactly one
request is issued and the first choice content is returned. -/
def generate (model_name prompt : String) (max_tokens : Nat) (temperature : Rat)
    (system_prompt : String)
    (transport : ChatRequest → Except String ChatResponse) :
    Except PyErr String × List ChatRequest :=
  match transport (generate_request model_name prompt max_tokens temperature system_prompt) with
  | .error e => (.error (.runtimeError ("server generate request failed: " ++ e)),
      [generate_request model_name prompt max_tokens temperature system_prompt])
  | .ok resp =>
      match resp.choices with
      | [] => (.error (.runtimeError "Failed to parse server generate response"),
          [generate_request model_name prompt max_tokens temperature system_prompt])
      | c :: _ => (.ok c,
          [generate_request model_name prompt max_tokens temperature system_prompt])

/-- The message list built by LocalOpenaiClient.generate_json: unlike
generate, the user message content is the plain prompt string. -/
def generate_json_messages (prompt system_prompt : String) : List ChatMessage :=
  (if pyTruthy system_prompt then [⟨"system", .str system_prompt⟩] else []) ++
    [⟨"user", .str prompt⟩]

/-- Embedding of LocalOpenaiClient.generate_json.  The success value
models the Python function's dynamic return value: the code returns
parsed.model_dump_json(), a string, injected here as JsonVal.str — even
though the signature and docstring promise the dict of the validated
model.  A transport failure or empty choices list is a RuntimeError; a
validation failure is a ValueError.  The request sent to the endpoint is
generate_json_request. -/
def generate_json_request (model_name prompt : String) (max_tokens : Nat)
    (temperature : Rat) (system_prompt : String) : ChatRequest :=
  ⟨model_name, generate_json_messages prompt system_prompt, some max_tokens, temperature⟩

/-- Embedding of LocalOpenaiClient.generate_json, continued: one request is
issued, then the first choice content is validated. -/
def generate_json (model_name prompt : String) (max_tokens : Nat)
    (response_model : ResponseModel) (temperature : Rat) (system_prompt : String)
    (transport : ChatRequest → Except String ChatResponse) :
    Except PyErr JsonVal × List ChatRequest :=
  match transport (generate_json_request model_name prompt max_tokens temperature system_prompt) with
  | .error e => (.error (.runtimeError ("server generate_json request failed: " ++ e)),
      [generate_json_request model_name prompt max_tokens temperature system_prompt])
  | .ok resp =>
      match resp.choices with
      | [] => (.error (.runtimeError "Failed to retrieve content from model response"),
          [generate_json_request model_name prompt max_tokens temperature system_prompt])
      | content :: _ =>
          match response_model.validate_json content with
          | .error ve => (.error (.valueError ("Invalid JSON structure: " ++ ve)),
              [generate_json_request model_name prompt max_tokens temperature system_prompt])
          | .ok parsed => (.ok (.str (response_model.dump_json parsed)),
              [generate_json_request model_name prompt max_tokens temperature system_prompt])

/-- The base64 alphabet. -/
def base64Chars : List Char :=
  "ABCDEFGHIJKLMNOPQRSTUVWXYZabcdefghijklmnopqrstuvwxyz0123456789+/".toList

/-- The base64 digit for a sextet value. -/
def sextet (n : Nat) : Char := base64Chars.getD n 'A'

/-- Standard base64 encoding of a byte sequence (bytes as naturals below
256), with '=' padding, as produced by base64.b64encode. -/
def base64Encode : List Nat → String
  | [] => ""
  | [a] => String.mk [sextet (a / 4 % 64), sextet (a % 4 * 16), '=', '=']
  | [a, b] =>
      String.mk [sextet (a / 4 % 64), sextet (a % 4 * 16 + b / 16), sextet (b % 16 * 4), '=']
  | a :: b :: c :: rest =>
      String.mk [sextet (a / 4 % 64), sextet (a % 4 * 16 + b / 16),
        sextet (b % 16 * 4 + c / 64), sextet (c % 64)] ++ base64Encode rest

/-- The body of _encode_image_to_data_uri, run on a path string (the
function's single parameter is named self and annotated str): read the
file (the filesystem is modelled by fs, none meaning unreadable), base64
encode its bytes, and prefix the JPEG data-URI header; a read failure is
wrapped into a RuntimeError. -/
def _encode_image_to_data_uri (fs : String → Option (List Nat)) (path : String) :
    Except PyErr String :=
  match fs path with
  | none => .error (.runtimeError ("Failed to encode image '" ++ path ++ "'"))
  | some bytes => .ok ("data:image/jpeg;base64," ++ base64Encode bytes)

/-- The call self._encode_image_to_data_uri(img_path) inside
generate_with_images: _encode_image_to_data_uri is declared with the
single parameter self, so this bound-method invocation passes two
positional arguments (the client instance and img_path) and Python raises
TypeError before the function body runs.  The fs and img_path arguments
are therefore never consulted. -/
def encode_image_method_call (fs : String → Option (List Nat)) (img_path : String) :
    Except PyErr String :=
  .error .typeError

/-- The for-loop over images in generate_with_images: each iteration
obtains a data URI via the bound-method call and appends an image_url
content part. -/
def build_image_content (fs : String → Option (List Nat)) :
    List String → Except PyErr (List ContentPart)
  | [] => .ok []
  | img_path :: rest =>
      match encode_image_method_call fs img_path with
      | .error e => .error e
      | .ok data_uri =>
          match build_image_content fs rest with
          | .error e => .error e
          | .ok more => .ok (.image_url data_uri :: more)

/-- The request built by generate_with_images from already-encoded image
parts: a content list of the text prompt followed by the image parts,
inside a user message after an optional system message. -/
def images_request (model_name prompt system_prompt : String) (max_tokens : Nat)
    (temperature : Rat) (imgParts : List ContentPart) : ChatRequest :=
  ⟨model_name,
    (if pyTruthy system_prompt then [⟨"system", MsgContent.str system_prompt⟩] else []) ++
      [⟨"user", .parts (ContentPart.text prompt :: imgParts)⟩],
    some max_tokens, temperature⟩

/-- Embedding of LocalOpenaiClient.generate_with_images: builds a content
list of the text prompt followed by one image_url part per image, wraps it
in a user message after an optional system message, and issues one
request.  Every exception inside the try block — including the TypeError
from the image-encoding call — is wrapped into the request RuntimeError;
on success the first choice content is stripped. -/
def generate_with_images (model_name prompt : String) (images : List String)
    (system_prompt : String) (max_tokens : Nat) (temperature : Rat)
    (fs : String → Option (List Nat))
    (transport : ChatRequest → Except String ChatResponse) :
    Except PyErr String × List ChatRequest :=
  match build_image_content fs images with
  | .error _ =>
      (.error (.runtimeError "server generate_with_images request failed: TypeError"), [])
  | .ok imgParts =>
      match transport (images_request model_name prompt system_prompt max_tokens temperature
          imgParts) with
      | .error e =>
          (.error (.runtimeError ("server generate_with_images request failed: " ++ e)),
            [images_request model_name prompt system_prompt max_tokens temperature imgParts])
      | .ok resp =>
          match resp.choices with
          | [] =>
              (.error (.runtimeError "Failed to parse server generate_with_images response"),
                [images_request model_name prompt system_prompt max_tokens temperature imgParts])
          | c :: _ => (.ok c.trim,
              [images_request model_name prompt system_prompt max_tokens temperature imgParts])

end LocalOpenaiClient

namespace OpenaiClient

/-- Embedding of OpenaiClient.generate: builds the same message shape as
the local variant (optional system message, then a user message with a
text part), issues one request with temperature 0.0 and no max_tokens,
and on a transport failure sleeps 60 seconds and raises a RuntimeError.
Returns the result, the requests issued, and the seconds slept.  The
single request sent is generate_request. -/
def generate_request (model_name prompt system_prompt : String) : ChatRequest :=
  ⟨model_name,
    (if pyTruthy system_prompt then [⟨"system", MsgContent.str system_prompt⟩] else []) ++
      [⟨"user", MsgContent.parts [ContentPart.text prompt]⟩],
    none, 0⟩

/-- Embedding of OpenaiClient.generate, continued: exactly one request is
issued; on failure the client sleeps then raises. -/
def generate (model_name prompt system_prompt : String)
    (transport : ChatRequest → Except String ChatResponse) :
    Except PyErr String × List ChatRequest × Nat :=
  match transport (generate_request model_name prompt system_prompt) with
  | .error e => (.error (.runtimeError ("OpenAi generate request failed: " ++ e)),
      [generate_request model_name prompt system_prompt], 60)
  | .ok resp =>
      match resp.choices with
      | [] => (.error (.runtimeError "Failed to parse OpenAI generate response"),
          [generate_request model_name prompt system_prompt], 0)
      | c :: _ => (.ok c, [generate_request model_name prompt system_prompt], 0)

end OpenaiClient

namespace LocalOpenaiClient

/-- The sextet value of a base64 digit. -/
def b64val (c : Char) : Nat := base64Chars.indexOf c

/-- Standard base64 decoding with '=' padding, the inverse of
base64Encode on byte sequences. -/
def base64Decode : List Char → List Nat
  | c1 :: c2 :: c3 :: c4 :: rest =>
      if c3 = '=' then [b64val c1 * 4 + b64val c2 / 16]
      else if c4 = '=' then
        [b64val c1 * 4 + b64val c2 / 16, b64val c2 % 16 * 16 + b64val c3 / 4]
      else
        (b64val c1 * 4 + b64val c2 / 16) :: (b64val c2 % 16 * 16 + b64val c3 / 4) ::
          (b64val c3 % 4 * 64 + b64val c4) :: base64Decode rest
  | _ => []

end LocalOpenaiClient

/-- A record whose id value cannot be coerced to an integer. -/
def badIdRecord : QdrantCollection.RawRecord := ⟨some (.str "abc"), some [1], none⟩

/-- A well-formed record with integer id 1. -/
def goodRecord : QdrantCollection.RawRecord := ⟨some (.int 1), some [1], none⟩

/-- A store that answers every search with two points of descending
scores 3 and 2. -/
def storeW : QdrantCollection.SearchRequest → Except String (List QdrantCollection.ScoredPoint) :=
  fun _ => .ok [⟨1, .obj [], 3⟩, ⟨2, .obj [], 2⟩]

/-- A transport whose response text is not JSON. -/
def transportNotJson : ChatRequest → Except String ChatResponse :=
  fun _ => .ok ⟨["not json"]⟩

/-- A transport whose response text is the object \x7b"a": 1\x7d. -/
def transportA : ChatRequest → Except String ChatResponse :=
  fun _ => .ok ⟨["\x7b\"a\": 1\x7d"]⟩

/-- A transport whose underlying call fails. -/
def transportFail : ChatRequest → Except String ChatResponse :=
  fun _ => .error "boom"

/-- A transport answering with the text ok. -/
def transportOk : ChatRequest → Except String ChatResponse :=
  fun _ => .ok ⟨["ok"]⟩

/-- A filesystem on which exactly the file img.jpg is readable, with
bytes 1, 2, 3. -/
def fsW : String → Option (List Nat) :=
  fun p => if p = "img.jpg" then some [1, 2, 3] else none

/-- C3: for every value of the filter argument, search issues the same
request to the underlying vector store and returns the same results — the
filter parameter is accepted but has no effect. -/
theorem search_filter_has_no_effect (collection_name : String)
    (store : QdrantCollection.SearchRequest → Except String (List QdrantCollection.ScoredPoint))
    (query_vector : List Rat) (limit : Nat)
    (f1 f2 : Option QdrantCollection.QdrantFilter) (score_threshold : Option Rat) :
    QdrantCollection.search collection_name store query_vector limit f1 score_threshold =
      QdrantCollection.search collection_name store query_vector limit f2 score_threshold :=
  rfl

/-- C5: create_collection issues a creation call only when the collection
name is absent from the listed names, so two successive calls (on a store
whose creation calls succeed) issue at most one creation call in total. -/
theorem create_collection_idempotent (b : QdrantCollection.QdrantBackend)
    (name : String) (vp : QdrantCollection.VectorParams) (h : b.create_ok = true) :
    ((QdrantCollection.create_collection b name vp).2.2).length +
        ((QdrantCollection.create_collection
          (QdrantCollection.create_collection b name vp).2.1 name vp).2.2).length ≤ 1 ∧
      (name ∈ b.collections → (QdrantCollection.create_collection b name vp).2.2 = []) := by
  obtain ⟨cols, gok, cok⟩ := b
  cases h
  cases gok with
  | false => simp [QdrantCollection.create_collection]
  | true =>
      by_cases hm : name ∈ cols
      · simp [QdrantCollection.create_collection, hm]
      · simp [QdrantCollection.create_collection, hm]

/-- Witness for C5 at the empty backend. -/
theorem create_collection_idempotent_witness :
    ((QdrantCollection.create_collection ⟨[], true, true⟩ "c" ⟨4, "Cosine"⟩).2.2).length +
      ((QdrantCollection.create_collection
        (QdrantCollection.create_collection ⟨[], true, true⟩ "c" ⟨4, "Cosine"⟩).2.1 "c"
          ⟨4, "Cosine"⟩).2.2).length ≤ 1 :=
  (create_collection_idempotent ⟨[], true, true⟩ "c" ⟨4, "Cosine"⟩ rfl).1

/-- C2 counterexample: a non-empty records list whose single record has
the uncoercible id "abc" makes add_records issue zero upsert calls, not
exactly one. -/
theorem add_records_nonempty_without_upsert :
    [badIdRecord] ≠ ([] : List QdrantCollection.RawRecord) ∧
      ((QdrantCollection.add_records "c" true [badIdRecord]).2).length = 0 :=
  ⟨by simp, rfl⟩

/-- C2 amended: add_records on the empty list raises a ValueError with
zero upsert calls, and on every non-empty list whose records all
construct valid points it issues exactly one bulk upsert call. -/
theorem add_records_empty_rejected_valid_upserted_once (collection_name : String)
    (upsert_ok : Bool) (records : List QdrantCollection.RawRecord) :
    (records = [] →
      (QdrantCollection.add_records collection_name upsert_ok records).1 =
          .error (.valueError "No records provided for upsert.") ∧
        (QdrantCollection.add_records collection_name upsert_ok records).2 = []) ∧
      (records ≠ [] → (∃ ps, QdrantCollection.buildPoints records = .ok ps) →
        ((QdrantCollection.add_records collection_name upsert_ok records).2).length = 1) := by
  constructor
  · rintro rfl
    exact ⟨rfl, rfl⟩
  · intro hne hok
    obtain ⟨ps, hps⟩ := hok
    cases records with
    | nil => exact absurd rfl hne
    | cons r rs =>
        simp only [QdrantCollection.add_records, hps]
        cases upsert_ok <;> rfl

/-- Witness for C2 amended: one valid record yields one upsert call, and
the empty list is rejected. -/
theorem add_records_empty_rejected_valid_upserted_once_witness :
    ((QdrantCollection.add_records "c" true [goodRecord]).2).length = 1 ∧
      (QdrantCollection.add_records "c" true ([] : List QdrantCollection.RawRecord)).1 =
        .error (.valueError "No records provided for upsert.") :=
  ⟨(add_records_empty_rejected_valid_upserted_once "c" true [goodRecord]).2 (by simp)
      ⟨[⟨1, [1], .obj []⟩], rfl⟩,
    ((add_records_empty_rejected_valid_upserted_once "c" true []).1 rfl).1⟩

/-- An error produced by Python int() coercion is a ValueError or a
TypeError, never a RuntimeError. -/
theorem pyInt_error_not_runtime (v : PyIdVal) (e : PyErr) (h : pyInt v = .error e) :
    e.isRuntimeError = false := by
  cases v with
  | int n => simp [pyInt] at h
  | str s =>
      cases hs : pyIntOfString s with
      | none => simp [pyInt, hs] at h; subst h; rfl
      | some n => simp [pyInt, hs] at h
  | other => simp [pyInt] at h; subst h; rfl

/-- An error produced during point construction is a raw KeyError /
ValueError / TypeError, never a RuntimeError. -/
theorem buildPoint_error_not_runtime (rec : QdrantCollection.RawRecord) (e : PyErr)
    (h : QdrantCollection.buildPoint rec = .error e) : e.isRuntimeError = false := by
  unfold QdrantCollection.buildPoint at h
  cases hid : rec.idField with
  | none => simp only [hid] at h; injection h with h; subst h; rfl
  | some idv =>
      simp only [hid] at h
      cases hi : pyInt idv with
      | error e2 =>
          simp only [hi] at h; injection h with h; subst h
          exact pyInt_error_not_runtime idv _ hi
      | ok idInt =>
          simp only [hi] at h
          cases hv : rec.vectorField with
          | none => simp only [hv] at h; injection h with h; subst h; rfl
          | some vec => simp only [hv] at h; cases h

/-- The first construction error of the loop is itself such a raw error. -/
theorem buildPoints_error_not_runtime (records : List QdrantCollection.RawRecord) (e : PyErr)
    (h : QdrantCollection.buildPoints records = .error e) : e.isRuntimeError = false := by
  induction records with
  | nil => simp [QdrantCollection.buildPoints] at h
  | cons r rs ih =>
      unfold QdrantCollection.buildPoints at h
      cases hp : QdrantCollection.buildPoint r with
      | error e2 =>
          simp only [hp] at h; injection h with h; subst h
          exact buildPoint_error_not_runtime r _ hp
      | ok p =>
          simp only [hp] at h
          cases hps : QdrantCollection.buildPoints rs with
          | error e2 => simp only [hps] at h; injection h with h; subst h; exact ih hps
          | ok ps => simp only [hps] at h; cases h

/-- C10: on a non-empty records list whose point construction fails, the
raw construction error escapes unchanged — it is not wrapped into the
upsert RuntimeError — and zero upsert calls reach the client. -/
theorem add_records_construction_error_escapes_raw (collection_name : String)
    (upsert_ok : Bool) (records : List QdrantCollection.RawRecord) (e : PyErr)
    (hne : records ≠ []) (hb : QdrantCollection.buildPoints records = .error e) :
    QdrantCollection.add_records collection_name upsert_ok records = (.error e, []) ∧
      e.isRuntimeError = false := by
  refine ⟨?_, buildPoints_error_not_runtime records e hb⟩
  cases records with
  | nil => exact absurd rfl hne
  | cons r rs => simp only [QdrantCollection.add_records, hb]

/-- Witness for C10 at a record with the uncoercible id "abc". -/
theorem add_records_construction_error_escapes_raw_witness :
    QdrantCollection.add_records "c" true [badIdRecord] =
        (.error (.valueError "invalid literal for int() with base 10: abc"), []) ∧
      (PyErr.valueError "invalid literal for int() with base 10: abc").isRuntimeError = false :=
  add_records_construction_error_escapes_raw "c" true [badIdRecord]
    (.valueError "invalid literal for int() with base 10: abc") (by simp) rfl

/-- C4: when the underlying store honors the score_threshold of the
request it receives and returns its points in non-increasing score order,
every successful search returns (id, payload, score) records in
non-increasing score order with every score at or above any provided
threshold. -/
theorem search_scores_sorted_and_thresholded (collection_name : String)
    (store : QdrantCollection.SearchRequest → Except String (List QdrantCollection.ScoredPoint))
    (query_vector : List Rat) (limit : Nat) (filter : Option QdrantCollection.QdrantFilter)
    (score_threshold : Option Rat) (out : List QdrantCollection.SearchResult)
    (hstore : ∀ pts,
      store ⟨collection_name, query_vector, limit, score_threshold⟩ = .ok pts →
        List.Pairwise (fun a b => b.score ≤ a.score) pts ∧
          ∀ p ∈ pts, ∀ t, score_threshold = some t → t ≤ p.score)
    (hout : QdrantCollection.search collection_name store query_vector limit filter
        score_threshold = .ok out) :
    List.Pairwise (fun a b : QdrantCollection.SearchResult => b.score ≤ a.score) out ∧
      ∀ r ∈ out, ∀ t, score_threshold = some t → t ≤ r.score := by
  unfold QdrantCollection.search at hout
  cases hs : store ⟨collection_name, query_vector, limit, score_threshold⟩ with
  | error e => simp only [hs] at hout; cases hout
  | ok pts =>
      simp only [hs] at hout
      injection hout with hout
      subst hout
      obtain ⟨hsort, hth⟩ := hstore pts hs
      constructor
      · rw [List.pairwise_map]
        exact hsort
      · intro r hr t ht
        obtain ⟨p, hp, rfl⟩ := List.mem_map.1 hr
        exact hth p hp t ht

/-- Witness for C4 at a two-point store and threshold 2. -/
theorem search_scores_sorted_and_thresholded_witness :
    List.Pairwise (fun a b : QdrantCollection.SearchResult => b.score ≤ a.score)
        [⟨1, .obj [], 3⟩, ⟨2, .obj [], 2⟩] ∧
      ∀ r ∈ ([⟨1, .obj [], 3⟩, ⟨2, .obj [], 2⟩] : List QdrantCollection.SearchResult),
        ∀ t, (some 2 : Option Rat) = some t → t ≤ r.score :=
  search_scores_sorted_and_thresholded "c" storeW [1] 10 none (some 2)
    [⟨1, .obj [], 3⟩, ⟨2, .obj [], 2⟩]
    (by
      intro pts h
      injection h with h
      subst h
      refine ⟨?_, ?_⟩
      · refine List.Pairwise.cons ?_ (List.Pairwise.cons ?_ List.Pairwise.nil)
        · intro p hp
          rcases List.mem_cons.1 hp with rfl | hp
          · norm_num
          · cases hp
        · intro p hp; cases hp
      · intro p hp t ht
        injection ht with ht
        subst ht
        rcases List.mem_cons.1 hp with rfl | hp
        · norm_num
        · rcases List.mem_cons.1 hp with rfl | hp
          · norm_num
          · cases hp)
    rfl

/-- C6: every Generate call issues exactly one request whose message list
is generate_messages (in both endpoint variants); with a non-empty system
prompt that list is exactly a system message with the given text followed
by a user message wrapping the prompt as a text content part, and with an
empty system prompt only the user message. -/
theorem generate_message_construction (model_name prompt system_prompt : String)
    (max_tokens : Nat) (temperature : Rat)
    (transport transport2 : ChatRequest → Except String ChatResponse) :
    ((LocalOpenaiClient.generate model_name prompt max_tokens temperature system_prompt
          transport).2).map ChatRequest.messages =
        [LocalOpenaiClient.generate_messages prompt system_prompt] ∧
      ((OpenaiClient.generate model_name prompt system_prompt transport2).2.1).map
          ChatRequest.messages =
        [LocalOpenaiClient.generate_messages prompt system_prompt] ∧
      (system_prompt ≠ "" →
        LocalOpenaiClient.generate_messages prompt system_prompt =
          [⟨"system", .str system_prompt⟩, ⟨"user", .parts [.text prompt]⟩]) ∧
      (system_prompt = "" →
        LocalOpenaiClient.generate_messages prompt system_prompt =
          [⟨"user", .parts [.text prompt]⟩]) := by
  refine ⟨?_, ?_, ?_, ?_⟩
  · unfold LocalOpenaiClient.generate
    cases transport (LocalOpenaiClient.generate_request model_name prompt max_tokens
        temperature system_prompt) with
    | error e => rfl
    | ok resp => obtain ⟨choices⟩ := resp; cases choices <;> rfl
  · unfold OpenaiClient.generate
    cases transport2 (OpenaiClient.generate_request model_name prompt system_prompt) with
    | error e => rfl
    | ok resp => obtain ⟨choices⟩ := resp; cases choices <;> rfl
  · intro h
    simp [LocalOpenaiClient.generate_messages, pyTruthy, h]
  · intro h
    simp [LocalOpenaiClient.generate_messages, pyTruthy, h]

/-- Witness for C6 at the spec's example arguments. -/
theorem generate_message_construction_witness :
    LocalOpenaiClient.generate_messages "hello" "be terse" =
      [⟨"system", .str "be terse"⟩, ⟨"user", .parts [.text "hello"]⟩] :=
  (generate_message_construction "m" "hello" "be terse" 10 0 transportOk
    transportOk).2.2.1 (by simp)

/-- C8: the OpenAI-endpoint Generate issues exactly one request to the
underlying client in every invocation, and when that call fails it sleeps
60 seconds and returns the request-class RuntimeError — no re-attempt and
no successful result after a failed call. -/
theorem openai_generate_single_attempt (model_name prompt system_prompt : String)
    (transport : ChatRequest → Except String ChatResponse) :
    (OpenaiClient.generate model_name prompt system_prompt transport).2.1 =
        [OpenaiClient.generate_request model_name prompt system_prompt] ∧
      ∀ e, transport (OpenaiClient.generate_request model_name prompt system_prompt) =
          .error e →
        (OpenaiClient.generate model_name prompt system_prompt transport).1 =
            .error (.runtimeError ("OpenAi generate request failed: " ++ e)) ∧
          (OpenaiClient.generate model_name prompt system_prompt transport).2.2 = 60 := by
  unfold OpenaiClient.generate
  cases h : transport (OpenaiClient.generate_request model_name prompt system_prompt) with
  | error e =>
      refine ⟨rfl, ?_⟩
      intro e2 h2
      injection h2 with h2
      subst h2
      exact ⟨rfl, rfl⟩
  | ok resp =>
      obtain ⟨choices⟩ := resp
      refine ⟨?_, ?_⟩
      · cases choices <;> rfl
      · intro e2 h2
        exact Except.noConfusion h2

/-- Witness for C8 at a failing transport. -/
theorem openai_generate_single_attempt_witness :
    (OpenaiClient.generate "m" "hello" "" transportFail).1 =
        .error (.runtimeError ("OpenAi generate request failed: " ++ "boom")) ∧
      (OpenaiClient.generate "m" "hello" "" transportFail).2.2 = 60 :=
  (openai_generate_single_attempt "m" "hello" "" transportFail).2 "boom" rfl

/-- C7: generate_json yields a validation-class ValueError exactly when
the endpoint produced a first-choice text that fails schema validation
(invalid JSON or nonconforming), and a failure of the underlying call
itself yields the request-class RuntimeError. -/
theorem generate_json_error_classification (model_name prompt : String) (max_tokens : Nat)
    (response_model : ResponseModel) (temperature : Rat) (system_prompt : String)
    (transport : ChatRequest → Except String ChatResponse) :
    ((∃ m, (LocalOpenaiClient.generate_json model_name prompt max_tokens response_model
          temperature system_prompt transport).1 = .error (.valueError m)) ↔
        ∃ text rest, transport (LocalOpenaiClient.generate_json_request model_name prompt
            max_tokens temperature system_prompt) = .ok ⟨text :: rest⟩ ∧
          ∃ ve, response_model.validate_json text = .error ve) ∧
      ∀ e, transport (LocalOpenaiClient.generate_json_request model_name prompt max_tokens
          temperature system_prompt) = .error e →
        (LocalOpenaiClient.generate_json model_name prompt max_tokens response_model
            temperature system_prompt transport).1 =
          .error (.runtimeError ("server generate_json request failed: " ++ e)) := by
  unfold LocalOpenaiClient.generate_json
  cases h : transport (LocalOpenaiClient.generate_json_request model_name prompt max_tokens
      temperature system_prompt) with
  | error e =>
      refine ⟨⟨?_, ?_⟩, ?_⟩
      · rintro ⟨m, hm⟩
        simp at hm
      · rintro ⟨text, rest, heq, _⟩
        exact Except.noConfusion heq
      · intro e2 h2
        injection h2 with h2
        subst h2
        rfl
  | ok resp =>
      obtain ⟨choices⟩ := resp
      refine ⟨?_, ?_⟩
      · cases choices with
        | nil =>
            constructor
            · rintro ⟨m, hm⟩
              simp at hm
            · rintro ⟨text, rest, heq, _⟩
              simp at heq
        | cons content rest0 =>
            cases hv : response_model.validate_json content with
            | error ve =>
                constructor
                · intro _
                  exact ⟨content, rest0, rfl, ve, hv⟩
                · intro _
                  refine ⟨"Invalid JSON structure: " ++ ve, ?_⟩
                  simp [hv]
            | ok parsed =>
                constructor
                · rintro ⟨m, hm⟩
                  simp [hv] at hm
                · rintro ⟨text, rest, heq, ve, hve⟩
                  injection heq with h1
                  injection h1 with h2
                  injection h2 with h3 h4
                  subst h3
                  rw [hv] at hve
                  exact Except.noConfusion hve
      · intro e2 h2
        exact Except.noConfusion h2

/-- Witness for C7: the text not json yields a ValueError, a failing call
yields a RuntimeError. -/
theorem generate_json_error_classification_witness :
    (∃ m, (LocalOpenaiClient.generate_json "m" "p" 10 modelA 0 "" transportNotJson).1 =
        .error (.valueError m)) ∧
      (LocalOpenaiClient.generate_json "m" "p" 10 modelA 0 "" transportFail).1 =
        .error (.runtimeError ("server generate_json request failed: " ++ "boom")) :=
  ⟨(generate_json_error_classification "m" "p" 10 modelA 0 "" transportNotJson).1.mpr
      ⟨"not json", [], rfl, "Invalid JSON", rfl⟩,
    (generate_json_error_classification "m" "p" 10 modelA 0 "" transportFail).2 "boom" rfl⟩

/-- C1: evaluating generate_json on a response whose text is the object
\x7b"a": 1\x7d against the single-integer-field schema shows that the code
returns the serialized string produced by model_dump_json — a string
value, not the structured object \x7b"a": 1\x7d that its signature and
docstring promise. -/
theorem generate_json_returns_serialized_string :
    (LocalOpenaiClient.generate_json "m" "p" 10 modelA 0 "" transportA).1 =
      .ok (.str "\x7b\"a\":1\x7d") :=
  rfl

/-- C9: evaluating generate_with_images on a readable image file shows
that the bound-method call to _encode_image_to_data_uri raises TypeError
(the function's only parameter is self), which the surrounding handler
wraps into the request RuntimeError with no request issued — while the
encoding function itself, applied to the path, would return the base64
data URI whose body decodes back to the file's bytes. -/
theorem generate_with_images_type_error :
    LocalOpenaiClient.generate_with_images "m" "p" ["img.jpg"] "" 512 (7 / 10) fsW
        transportOk =
      (.error (.runtimeError "server generate_with_images request failed: TypeError"), []) ∧
    LocalOpenaiClient._encode_image_to_data_uri fsW "img.jpg" =
        .ok "data:image/jpeg;base64,AQID" ∧
      LocalOpenaiClient.base64Decode "AQID".toList = [1, 2, 3] :=
  ⟨rfl, rfl, rfl⟩

/-- Every base64 digit of a sextet value is its own decoded value. -/
theorem b64val_sextet : ∀ n < 64, LocalOpenaiClient.b64val (LocalOpenaiClient.sextet n) = n := by
  decide

/-- No base64 digit is the padding character. -/
theorem sextet_ne_pad : ∀ n < 64, LocalOpenaiClient.sextet n ≠ '=' := by
  decide

/-- Characters of a literal list survive string append. -/
theorem string_mk_append_toList (l : List Char) (s : String) :
    (String.mk l ++ s).toList = l ++ s.toList := by
  cases s
  rfl

/-- base64 decoding is a left inverse of base64 encoding on byte
sequences: the image bytes embedded in a data URI are recoverable
exactly. -/
theorem base64_roundtrip : (bs : List Nat) → (∀ x ∈ bs, x < 256) →
    LocalOpenaiClient.base64Decode (LocalOpenaiClient.base64Encode bs).toList = bs
  | [], _ => rfl
  | [a], h => by
      have ha : a < 256 := h a (by simp)
      have h1 : a / 4 % 64 < 64 := Nat.mod_lt _ (by norm_num)
      have h2 : a % 4 * 16 < 64 := by omega
      show LocalOpenaiClient.base64Decode
          [LocalOpenaiClient.sextet (a / 4 % 64), LocalOpenaiClient.sextet (a % 4 * 16),
            '=', '='] = [a]
      rw [LocalOpenaiClient.base64Decode, if_pos rfl, b64val_sextet _ h1, b64val_sextet _ h2]
      simp only [List.cons.injEq, and_true]
      omega
  | [a, b], h => by
      have ha : a < 256 := h a (by simp)
      have hb : b < 256 := h b (by simp)
      have h1 : a / 4 % 64 < 64 := Nat.mod_lt _ (by norm_num)
      have h2 : a % 4 * 16 + b / 16 < 64 := by omega
      have h3 : b % 16 * 4 < 64 := by omega
      show LocalOpenaiClient.base64Decode
          [LocalOpenaiClient.sextet (a / 4 % 64),
            LocalOpenaiClient.sextet (a % 4 * 16 + b / 16),
            LocalOpenaiClient.sextet (b % 16 * 4), '='] = [a, b]
      rw [LocalOpenaiClient.base64Decode, if_neg (sextet_ne_pad _ h3), if_pos rfl,
        b64val_sextet _ h1, b64val_sextet _ h2, b64val_sextet _ h3]
      simp only [List.cons.injEq, and_true]
      omega
  | a :: b :: c :: rest, h => by
      have ha : a < 256 := h a (by simp)
      have hb : b < 256 := h b (by simp)
      have hc : c < 256 := h c (by simp)
      have h1 : a / 4 % 64 < 64 := Nat.mod_lt _ (by norm_num)
      have h2 : a % 4 * 16 + b / 16 < 64 := by omega
      have h3 : b % 16 * 4 + c / 64 < 64 := by omega
      have h4 : c % 64 < 64 := Nat.mod_lt _ (by norm_num)
      have ih := base64_roundtrip rest (fun x hx => h x (by simp [hx]))
      show LocalOpenaiClient.base64Decode
          ((String.mk [LocalOpenaiClient.sextet (a / 4 % 64),
              LocalOpenaiClient.sextet (a % 4 * 16 + b / 16),
              LocalOpenaiClient.sextet (b % 16 * 4 + c / 64),
              LocalOpenaiClient.sextet (c % 64)] ++
            LocalOpenaiClient.base64Encode rest).toList) = a :: b :: c :: rest
      rw [string_mk_append_toList, List.cons_append, List.cons_append, List.cons_append,
        List.cons_append, List.nil_append, LocalOpenaiClient.base64Decode,
        if_neg (sextet_ne_pad _ h3), if_neg (sextet_ne_pad _ h4),
        b64val_sextet _ h1, b64val_sextet _ h2, b64val_sextet _ h3, b64val_sextet _ h4, ih]
      simp only [List.cons.injEq, and_true]
      refine ⟨by omega, by omega, by omega⟩
